import Mathlib

/-!
Verification of the facial-recognition microservice
(src/services/facial-recognition-service/main.py) against its specification.

The external face_recognition library (image decoding, face extraction,
distance computation) is an opaque collaborator of the service; it is
modelled here as oracle parameters (`extract`, `fdist`) passed to the
handlers, exactly as the service treats it. The sqlite table
`facial_templates` is modelled as a list of rows with `fan_id` as primary
key; the SQL statements the service issues are modelled by the
corresponding list operations. sqlite calls can raise (e.g. a locked
database); this is modelled by the fault-injection record `DbFaults`,
which makes `cursor.execute` or `conn.commit` raise with a given message,
landing in the handler's catch-all `except` branch. Each handler result
records the response, the resulting table, and whether a sqlite connection
opened by the handler is still open when the handler returns.
-/

namespace FacialRec

/-- A facial embedding vector (numpy float64 array in the source), modelled
over ℚ. -/
abbrev Encoding := List ℚ

/-- One row of the `facial_templates` table (main.py lines 42-49):
fan_id TEXT PRIMARY KEY, encoding BLOB, created_at and updated_at
timestamps with default CURRENT_TIMESTAMP. Timestamps are modelled as
naturals (clock ticks). -/
structure Row where
  fan_id : String
  encoding : Encoding
  created_at : Nat
  updated_at : Nat
deriving DecidableEq

/-- The `facial_templates` table. -/
abbrev Store := List Row

/-- `SELECT encoding FROM facial_templates WHERE fan_id = ?` followed by
`fetchone()` (main.py lines 174-175). -/
def selectEncoding (s : Store) (fid : String) : Option Encoding :=
  (s.find? (fun r => r.fan_id == fid)).map Row.encoding

/-- `INSERT OR REPLACE INTO facial_templates (fan_id, encoding, updated_at)
VALUES (?, ?, ?)` (main.py lines 122-125). sqlite's OR REPLACE deletes any
row conflicting on the primary key and inserts a fresh row; the column
`created_at`, absent from the column list, takes its declared default
CURRENT_TIMESTAMP, i.e. the time of this insert. `updated_at` is passed
`datetime.utcnow()`, also the time of this insert. -/
def insertOrReplace (s : Store) (fid : String) (enc : Encoding) (now : Nat) : Store :=
  s.filter (fun r => r.fan_id != fid) ++ [⟨fid, enc, now, now⟩]

/-- `DELETE FROM facial_templates WHERE fan_id = ?` (main.py line 232):
the resulting table paired with `cursor.rowcount`, the number of rows
removed. -/
def deleteRows (s : Store) (fid : String) : Store × Nat :=
  (s.filter (fun r => r.fan_id != fid), (s.filter (fun r => r.fan_id == fid)).length)

/-- A JSON value as produced by `jsonify`: the service only emits strings,
numbers and booleans. -/
inductive JVal where
  | str (s : String)
  | num (q : ℚ)
  | jbool (b : Bool)
deriving DecidableEq

/-- An HTTP response: status code and JSON object body as an ordered list
of fields. -/
structure Response where
  status : Nat
  body : List (String × JVal)
deriving DecidableEq

/-- The parsed JSON request body for register/verify: `data.get('fan_id')`
and `data.get('image')` each yield `None` when absent. -/
structure ReqData where
  fan_id : Option String
  image : Option String

/-- Python truthiness of the `if not fan_id` / `if not image` guards
(main.py lines 96-99, 166-169): `None` and the empty string are falsy. -/
def isFalsy : Option String → Bool
  | none => true
  | some s => s == ""

/-- Outcome of the base64-decode + `face_recognition.load_image_file` +
`face_recognition.face_encodings` pipeline on an image payload:
either the decode step raises (caught as a 400 invalid-image error) or a
list of face encodings is produced. -/
inductive ExtractResult where
  | invalid (msg : String)
  | faces (encs : List Encoding)

/-- Fault injection for the sqlite calls a handler makes: a `some msg`
makes `cursor.execute` (resp. `conn.commit`) raise an exception with that
text, which the handler's catch-all `except` turns into a 500 response. -/
structure DbFaults where
  execFail : Option String
  commitFail : Option String

/-- The fault-free database: no sqlite call raises. -/
def noFaults : DbFaults := ⟨none, none⟩

/-- What a handler invocation yields: the HTTP response, the resulting
table state, and whether a sqlite connection the handler opened is still
open at the moment the handler returns. -/
structure HResult where
  resp : Response
  store : Store
  connOpenAtReturn : Bool
deriving DecidableEq

/-- `is_match = distance < SIMILARITY_THRESHOLD` (main.py line 211). -/
def isMatchOf (distance threshold : ℚ) : Bool :=
  distance < threshold

/-- `confidence = max(0.0, min(1.0, 1.0 - (distance / SIMILARITY_THRESHOLD)))`
(main.py line 212). -/
def confidenceOf (distance threshold : ℚ) : ℚ :=
  max 0 (min 1 (1 - distance / threshold))

/-- GET /health (main.py lines 61-68). `jsonify` without an explicit code
returns status 200. The argument is the state of the template store, which
the handler never touches. -/
def health_check (_s : Store) : Response :=
  ⟨200, [("status", JVal.str "healthy"),
         ("service", JVal.str "facial-recognition-service"),
         ("version", JVal.str "1.0.0")]⟩

/-- POST /register (main.py lines 70-136). `extract` is the external
decode-and-extract pipeline applied to the base64 image string; `now` is
the current time used for the row timestamps. The sqlite connection is
opened (line 120) only on the single-face path; if `execute` or `commit`
raises, the catch-all `except` returns 500 and no statement closes the
connection. On a sqlite failure the insert is not committed, so the table
is unchanged. -/
def register_face (extract : String → ExtractResult) (faults : DbFaults)
    (data : Option ReqData) (s : Store) (now : Nat) : HResult :=
  match data with
  | none => ⟨⟨400, [("error", JVal.str "No JSON data provided")]⟩, s, false⟩
  | some d =>
    if isFalsy d.fan_id then
      ⟨⟨400, [("error", JVal.str "fan_id is required")]⟩, s, false⟩
    else if isFalsy d.image then
      ⟨⟨400, [("error", JVal.str "image is required")]⟩, s, false⟩
    else
      match extract (d.image.getD "") with
      | ExtractResult.invalid msg =>
        ⟨⟨400, [("error", JVal.str ("Invalid image format: " ++ msg))]⟩, s, false⟩
      | ExtractResult.faces [] =>
        ⟨⟨400, [("error", JVal.str "No face detected in image")]⟩, s, false⟩
      | ExtractResult.faces [enc] =>
        -- conn = get_db_connection(): the connection is now open
        match faults.execFail with
        | some msg =>
          ⟨⟨500, [("error", JVal.str ("Internal server error: " ++ msg))]⟩, s, true⟩
        | none =>
          match faults.commitFail with
          | some msg =>
            ⟨⟨500, [("error", JVal.str ("Internal server error: " ++ msg))]⟩, s, true⟩
          | none =>
            -- conn.close() (line 127): connection released before returning
            ⟨⟨200, [("success", JVal.jbool true),
                    ("fan_id", JVal.str (d.fan_id.getD "")),
                    ("message", JVal.str "Face template registered successfully")]⟩,
             insertOrReplace s (d.fan_id.getD "") enc now, false⟩
      | ExtractResult.faces _ =>
        ⟨⟨400, [("error", JVal.str "Multiple faces detected. Please provide image with single face")]⟩, s, false⟩

/-- POST /verify (main.py lines 138-224). `fdist` is
`face_recognition.face_distance` applied to (stored encoding, probe
encoding); `threshold` is SIMILARITY_THRESHOLD. The sqlite connection is
opened at line 172 and closed at line 176, before the not-found check and
before any image work; only the SELECT can raise while it is open. -/
def verify_face (extract : String → ExtractResult)
    (fdist : Encoding → Encoding → ℚ) (threshold : ℚ) (faults : DbFaults)
    (data : Option ReqData) (s : Store) : HResult :=
  match data with
  | none => ⟨⟨400, [("error", JVal.str "No JSON data provided")]⟩, s, false⟩
  | some d =>
    if isFalsy d.fan_id then
      ⟨⟨400, [("error", JVal.str "fan_id is required")]⟩, s, false⟩
    else if isFalsy d.image then
      ⟨⟨400, [("error", JVal.str "image is required")]⟩, s, false⟩
    else
      -- conn = get_db_connection(): the connection is now open
      match faults.execFail with
      | some msg =>
        ⟨⟨500, [("error", JVal.str ("Internal server error: " ++ msg))]⟩, s, true⟩
      | none =>
        -- conn.close() (line 176): connection released before the row check
        match selectEncoding s (d.fan_id.getD "") with
        | none =>
          ⟨⟨404, [("error", JVal.str "Face not registered for this fan_id")]⟩, s, false⟩
        | some stored =>
          match extract (d.image.getD "") with
          | ExtractResult.invalid msg =>
            ⟨⟨400, [("error", JVal.str ("Invalid image format: " ++ msg))]⟩, s, false⟩
          | ExtractResult.faces [] =>
            ⟨⟨200, [("success", JVal.jbool true),
                    ("fan_id", JVal.str (d.fan_id.getD "")),
                    ("confidence_score", JVal.num 0),
                    ("is_match", JVal.jbool false),
                    ("distance", JVal.num 1),
                    ("message", JVal.str "No face detected in image")]⟩, s, false⟩
          | ExtractResult.faces [probe] =>
            ⟨⟨200, [("success", JVal.jbool true),
                    ("fan_id", JVal.str (d.fan_id.getD "")),
                    ("confidence_score", JVal.num (confidenceOf (fdist stored probe) threshold)),
                    ("is_match", JVal.jbool (isMatchOf (fdist stored probe) threshold)),
                    ("distance", JVal.num (fdist stored probe)),
                    ("threshold", JVal.num threshold)]⟩, s, false⟩
          | ExtractResult.faces _ =>
            ⟨⟨400, [("error", JVal.str "Multiple faces detected. Please provide image with single face")]⟩, s, false⟩

/-- DELETE /delete/fan_id (main.py lines 226-247). The fan_id arrives as a
path parameter. The connection is opened at line 230 and closed at line
235, before the rowcount check; if `execute` or `commit` raises, the
catch-all returns 500 with the connection still open, and an uncommitted
delete is rolled back. -/
def delete_face (faults : DbFaults) (fan_id : String) (s : Store) : HResult :=
  -- conn = get_db_connection(): the connection is now open
  match faults.execFail with
  | some msg =>
    ⟨⟨500, [("error", JVal.str ("Internal server error: " ++ msg))]⟩, s, true⟩
  | none =>
    match faults.commitFail with
    | some msg =>
      ⟨⟨500, [("error", JVal.str ("Internal server error: " ++ msg))]⟩, s, true⟩
    | none =>
      -- conn.close() (line 235): connection released before the rowcount check
      let res := deleteRows s fan_id
      if res.2 == 0 then
        ⟨⟨404, [("error", JVal.str "Face template not found")]⟩, res.1, false⟩
      else
        ⟨⟨200, [("success", JVal.jbool true),
                ("fan_id", JVal.str fan_id),
                ("message", JVal.str "Face template deleted successfully")]⟩, res.1, false⟩

/-- Helper: the exact response on verify's single-face comparison path. -/
theorem verify_single_face_resp (extract : String → ExtractResult)
    (fdist : Encoding → Encoding → ℚ) (threshold : ℚ)
    (fid img : String) (s : Store) (stored probe : Encoding)
    (hfid : fid ≠ "") (himg : img ≠ "")
    (hsel : selectEncoding s fid = some stored)
    (hext : extract img = ExtractResult.faces [probe]) :
    (verify_face extract fdist threshold noFaults (some ⟨some fid, some img⟩) s).resp =
      ⟨200, [("success", JVal.jbool true),
             ("fan_id", JVal.str fid),
             ("confidence_score", JVal.num (confidenceOf (fdist stored probe) threshold)),
             ("is_match", JVal.jbool (isMatchOf (fdist stored probe) threshold)),
             ("distance", JVal.num (fdist stored probe)),
             ("threshold", JVal.num threshold)]⟩ := by
  unfold verify_face
  simp [isFalsy, hfid, himg, noFaults, hsel, hext]

/-- C1: for every verify request whose identifier has a stored template and
whose image yields exactly one face encoding, the response has status 200
and carries is_match = (distance < threshold), confidence_score =
clamp(1 - distance/threshold, 0, 1), the computed distance, and the
threshold used. -/
theorem C1_verify_single_face (extract : String → ExtractResult)
    (fdist : Encoding → Encoding → ℚ) (threshold : ℚ)
    (fid img : String) (s : Store) (stored probe : Encoding)
    (hfid : fid ≠ "") (himg : img ≠ "")
    (hsel : selectEncoding s fid = some stored)
    (hext : extract img = ExtractResult.faces [probe]) :
    (verify_face extract fdist threshold noFaults (some ⟨some fid, some img⟩) s).resp =
      ⟨200, [("success", JVal.jbool true),
             ("fan_id", JVal.str fid),
             ("confidence_score", JVal.num (max 0 (min 1 (1 - fdist stored probe / threshold)))),
             ("is_match", JVal.jbool (decide (fdist stored probe < threshold))),
             ("distance", JVal.num (fdist stored probe)),
             ("threshold", JVal.num threshold)]⟩ := by
  rw [verify_single_face_resp extract fdist threshold fid img s stored probe hfid himg hsel hext]
  rfl

/-- C1 witness: concrete run with stored template [1], probe [0],
distance 1/2, threshold 3/5. -/
theorem C1_verify_single_face_witness :
    (verify_face (fun _ => ExtractResult.faces [[0]]) (fun _ _ => 1/2) (3/5) noFaults
        (some ⟨some "a", some "i"⟩) [⟨"a", [1], 0, 0⟩]).resp =
      ⟨200, [("success", JVal.jbool true),
             ("fan_id", JVal.str "a"),
             ("confidence_score", JVal.num (max 0 (min 1 (1 - (1/2 : ℚ) / (3/5))))),
             ("is_match", JVal.jbool (decide ((1/2 : ℚ) < 3/5))),
             ("distance", JVal.num (1/2)),
             ("threshold", JVal.num (3/5))]⟩ :=
  C1_verify_single_face (fun _ => ExtractResult.faces [[0]]) (fun _ _ => 1/2) (3/5)
    "a" "i" [⟨"a", [1], 0, 0⟩] [1] [0] (by decide) (by decide) (by rfl) rfl

/-- C7: verify never changes the stored table, on any path, even when a
sqlite call raises. -/
theorem C7_verify_pure_read (extract : String → ExtractResult)
    (fdist : Encoding → Encoding → ℚ) (threshold : ℚ) (faults : DbFaults)
    (data : Option ReqData) (s : Store) :
    (verify_face extract fdist threshold faults data s).store = s := by
  unfold verify_face
  repeat' split
  all_goals rfl

/-- C8: for every store state, a health request returns status 200 with
exactly the fixed status/service/version fields, and the response is
independent of the store. -/
theorem C8_health_constant (s : Store) :
    health_check s = ⟨200, [("status", JVal.str "healthy"),
                            ("service", JVal.str "facial-recognition-service"),
                            ("version", JVal.str "1.0.0")]⟩ ∧
    ∀ s₂ : Store, health_check s = health_check s₂ :=
  ⟨rfl, fun _ => rfl⟩

/-- C9: in verify the not-found check precedes image decoding: with
non-empty fan_id and image and no stored template, the response is 404 for
every behaviour of the image pipeline (`extract` is universally
quantified, so the result is the same whether the payload is undecodable,
has no faces, or has many). -/
theorem C9_not_found_before_decode (extract : String → ExtractResult)
    (fdist : Encoding → Encoding → ℚ) (threshold : ℚ)
    (fid img : String) (s : Store)
    (hfid : fid ≠ "") (himg : img ≠ "")
    (hsel : selectEncoding s fid = none) :
    (verify_face extract fdist threshold noFaults (some ⟨some fid, some img⟩) s).resp.status = 404 := by
  unfold verify_face
  simp [isFalsy, hfid, himg, noFaults, hsel]

/-- C9 witness: an unregistered id with an undecodable image still gets 404. -/
theorem C9_not_found_before_decode_witness :
    (verify_face (fun _ => ExtractResult.invalid "cannot identify image file")
        (fun _ _ => 0) (3/5) noFaults
        (some ⟨some "ghost", some "i"⟩) []).resp.status = 404 :=
  C9_not_found_before_decode (fun _ => ExtractResult.invalid "cannot identify image file")
    (fun _ _ => 0) (3/5) "ghost" "i" [] (by decide) (by decide) rfl

/-- C2 counterexample: on the zero-face verify path the claim's "same field
shape" fails — the concrete 200 response has no "threshold" field and
carries a "message" field instead. -/
theorem C2_zero_faces_shape_counterexample :
    ((verify_face (fun _ => ExtractResult.faces []) (fun _ _ => 0) (3/5) noFaults
        (some ⟨some "a", some "i"⟩) [⟨"a", [1], 0, 0⟩]).resp.body.lookup "threshold"
      = none) ∧
    ((verify_face (fun _ => ExtractResult.faces []) (fun _ _ => 0) (3/5) noFaults
        (some ⟨some "a", some "i"⟩) [⟨"a", [1], 0, 0⟩]).resp.body.lookup "message"
      = some (JVal.str "No face detected in image")) ∧
    ((verify_face (fun _ => ExtractResult.faces []) (fun _ _ => 0) (3/5) noFaults
        (some ⟨some "a", some "i"⟩) [⟨"a", [1], 0, 0⟩]).resp.status = 200) := by
  refine ⟨?_, ?_, ?_⟩ <;> rfl

/-- C2 amended: for every verify request whose identifier has a stored
template and whose image yields zero face encodings, the response has
status 200 with is_match = false, distance = 1.0 and confidence_score =
0.0, but its fields are success, fan_id, confidence_score, is_match,
distance and message — the threshold field of the normal success response
is absent and an extra message field is present. -/
theorem C2_verify_zero_faces (extract : String → ExtractResult)
    (fdist : Encoding → Encoding → ℚ) (threshold : ℚ)
    (fid img : String) (s : Store) (stored : Encoding)
    (hfid : fid ≠ "") (himg : img ≠ "")
    (hsel : selectEncoding s fid = some stored)
    (hext : extract img = ExtractResult.faces []) :
    (verify_face extract fdist threshold noFaults (some ⟨some fid, some img⟩) s).resp =
      ⟨200, [("success", JVal.jbool true),
             ("fan_id", JVal.str fid),
             ("confidence_score", JVal.num 0),
             ("is_match", JVal.jbool false),
             ("distance", JVal.num 1),
             ("message", JVal.str "No face detected in image")]⟩ := by
  unfold verify_face
  simp [isFalsy, hfid, himg, noFaults, hsel, hext]

/-- C2 witness: concrete zero-face verify run on a registered id. -/
theorem C2_verify_zero_faces_witness :
    (verify_face (fun _ => ExtractResult.faces []) (fun _ _ => 0) (1/2) noFaults
        (some ⟨some "b", some "i"⟩) [⟨"b", [2], 0, 0⟩]).resp =
      ⟨200, [("success", JVal.jbool true),
             ("fan_id", JVal.str "b"),
             ("confidence_score", JVal.num 0),
             ("is_match", JVal.jbool false),
             ("distance", JVal.num 1),
             ("message", JVal.str "No face detected in image")]⟩ :=
  C2_verify_zero_faces (fun _ => ExtractResult.faces []) (fun _ _ => 0) (1/2)
    "b" "i" [⟨"b", [2], 0, 0⟩] [2] (by decide) (by decide) rfl rfl

/-- C5: a register request whose image yields zero faces or more than one
face gets a 400 and writes no row; a verify request on a registered id
whose image yields more than one face gets a 400. -/
theorem C5_wrong_face_count_rejected (extract : String → ExtractResult)
    (fdist : Encoding → Encoding → ℚ) (threshold : ℚ)
    (fid img : String) (s : Store) (now : Nat)
    (hfid : fid ≠ "") (himg : img ≠ "") :
    (extract img = ExtractResult.faces [] →
      (register_face extract noFaults (some ⟨some fid, some img⟩) s now).resp.status = 400 ∧
      (register_face extract noFaults (some ⟨some fid, some img⟩) s now).store = s) ∧
    (∀ e₁ e₂ rest, extract img = ExtractResult.faces (e₁ :: e₂ :: rest) →
      (register_face extract noFaults (some ⟨some fid, some img⟩) s now).resp.status = 400 ∧
      (register_face extract noFaults (some ⟨some fid, some img⟩) s now).store = s) ∧
    ((selectEncoding s fid).isSome = true →
      ∀ e₁ e₂ rest, extract img = ExtractResult.faces (e₁ :: e₂ :: rest) →
      (verify_face extract fdist threshold noFaults (some ⟨some fid, some img⟩) s).resp.status = 400) := by
  refine ⟨fun hext => ?_, fun e₁ e₂ rest hext => ?_, fun hsome e₁ e₂ rest hext => ?_⟩
  · unfold register_face
    simp [isFalsy, hfid, himg, hext]
  · unfold register_face
    simp [isFalsy, hfid, himg, hext]
  · obtain ⟨stored, hsel⟩ := Option.isSome_iff_exists.mp hsome
    unfold verify_face
    simp [isFalsy, hfid, himg, noFaults, hsel, hext]

/-- C5 witness: a two-face image is rejected by register (store untouched)
and by verify on a registered id. -/
theorem C5_wrong_face_count_rejected_witness :
    (register_face (fun _ => ExtractResult.faces [[0], [1]]) noFaults
        (some ⟨some "a", some "i"⟩) [⟨"a", [1], 0, 0⟩] 7).resp.status = 400 ∧
    (register_face (fun _ => ExtractResult.faces [[0], [1]]) noFaults
        (some ⟨some "a", some "i"⟩) [⟨"a", [1], 0, 0⟩] 7).store = [⟨"a", [1], 0, 0⟩] ∧
    (verify_face (fun _ => ExtractResult.faces [[0], [1]]) (fun _ _ => 0) (3/5) noFaults
        (some ⟨some "a", some "i"⟩) [⟨"a", [1], 0, 0⟩]).resp.status = 400 := by
  have h := C5_wrong_face_count_rejected (fun _ => ExtractResult.faces [[0], [1]])
    (fun _ _ => 0) (3/5) "a" "i" [⟨"a", [1], 0, 0⟩] 7 (by decide) (by decide)
  exact ⟨(h.2.1 [0] [1] [] rfl).1, (h.2.1 [0] [1] [] rfl).2, h.2.2 rfl [0] [1] [] rfl⟩

/-- Helper: the rows surviving a delete are exactly those with a different
fan_id, and none of them matches the deleted id again. -/
theorem filter_ne_then_eq_nil (s : Store) (fid : String) :
    (s.filter (fun r => r.fan_id != fid)).filter (fun r => r.fan_id == fid) = [] := by
  rw [List.filter_filter]
  apply List.filter_eq_nil_iff.mpr
  intro a _
  by_cases h : a.fan_id = fid <;> simp [h]

/-- C6: delete removes the row and answers 200 when the identifier is
present, answers 404 leaving the table unchanged when it is absent, and
hence a second delete right after a successful one answers 404. -/
theorem C6_delete_semantics (fid : String) (s : Store) :
    ((∃ r ∈ s, r.fan_id = fid) →
        (delete_face noFaults fid s).resp.status = 200 ∧
        (delete_face noFaults fid s).store = s.filter (fun r => r.fan_id != fid) ∧
        (delete_face noFaults fid (delete_face noFaults fid s).store).resp.status = 404) ∧
    ((¬ ∃ r ∈ s, r.fan_id = fid) →
        (delete_face noFaults fid s).resp.status = 404 ∧
        (delete_face noFaults fid s).store = s) := by
  constructor
  · intro hex
    have hne : s.filter (fun r => r.fan_id == fid) ≠ [] := by
      obtain ⟨r, hr, hfr⟩ := hex
      intro hnil
      have := List.filter_eq_nil_iff.mp hnil r hr
      simp [hfr] at this
    have hlen : ((s.filter (fun r => r.fan_id == fid)).length == 0) = false := by
      simp [List.length_eq_zero, hne]
    have hstore : (delete_face noFaults fid s).store = s.filter (fun r => r.fan_id != fid) := by
      unfold delete_face noFaults deleteRows
      simp [hlen]
    refine ⟨?_, hstore, ?_⟩
    · unfold delete_face noFaults deleteRows
      simp [hlen]
    · rw [hstore]
      unfold delete_face noFaults deleteRows
      simp [filter_ne_then_eq_nil]
  · intro hnex
    have hnil : s.filter (fun r => r.fan_id == fid) = [] := by
      apply List.filter_eq_nil_iff.mpr
      intro a ha
      by_cases h : a.fan_id = fid
      · exact absurd ⟨a, ha, h⟩ hnex
      · simp [h]
    have hall : s.filter (fun r => r.fan_id != fid) = s := by
      apply List.filter_eq_self.mpr
      intro a ha
      by_cases h : a.fan_id = fid
      · exact absurd ⟨a, ha, h⟩ hnex
      · simp [h]
    constructor
    · unfold delete_face noFaults deleteRows
      simp [hnil]
    · unfold delete_face noFaults deleteRows
      simp [hnil, hall]

/-- C6 witness: deleting "a" from a one-row table answers 200, deleting it
again answers 404, and a delete on an absent id leaves the table as it is. -/
theorem C6_delete_semantics_witness :
    (delete_face noFaults "a" [⟨"a", [1], 0, 0⟩]).resp.status = 200 ∧
    (delete_face noFaults "a" (delete_face noFaults "a" [⟨"a", [1], 0, 0⟩]).store).resp.status = 404 ∧
    (delete_face noFaults "b" [⟨"a", [1], 0, 0⟩]).resp.status = 404 ∧
    (delete_face noFaults "b" [⟨"a", [1], 0, 0⟩]).store = [⟨"a", [1], 0, 0⟩] := by
  have h1 := (C6_delete_semantics "a" [⟨"a", [1], 0, 0⟩]).1
    ⟨⟨"a", [1], 0, 0⟩, by simp, rfl⟩
  have h2 := (C6_delete_semantics "b" [⟨"a", [1], 0, 0⟩]).2 (by simp)
  exact ⟨h1.1, h1.2.2, h2.1, h2.2⟩

/-- C3 counterexample: the row for "a" was created at time 0; after a
second successful registration at time 5, the stored row's created_at is
5, not the original 0 — INSERT OR REPLACE replaces the whole row and the
creation timestamp takes its default, the time of the second insert. -/
theorem C3_created_at_counterexample :
    (⟨"a", [0], 0, 0⟩ : Row).created_at = 0 ∧
    (((register_face (fun _ => ExtractResult.faces [[1]]) noFaults
        (some ⟨some "a", some "i"⟩) [⟨"a", [0], 0, 0⟩] 5).store).find?
          (fun r => r.fan_id == "a")).map Row.created_at = some 5 ∧
    (5 : Nat) ≠ 0 :=
  ⟨rfl, rfl, by decide⟩

/-- C3 amended: a second successful register for an identifier that
already has a stored template keeps at most one row for it and leaves
other identifiers' rows unchanged, but replaces the row wholesale: the
encoding, the update timestamp AND the creation timestamp are all set
anew (created_at is reset to the time of the second registration, not
preserved). -/
theorem C3_reregister_replaces_row (extract : String → ExtractResult)
    (fid img : String) (s : Store) (enc : Encoding) (now : Nat)
    (hfid : fid ≠ "") (himg : img ≠ "")
    (_hprev : ∃ r ∈ s, r.fan_id = fid)
    (hext : extract img = ExtractResult.faces [enc]) :
    (register_face extract noFaults (some ⟨some fid, some img⟩) s now).resp.status = 200 ∧
    (register_face extract noFaults (some ⟨some fid, some img⟩) s now).store.filter
        (fun r => r.fan_id == fid) = [⟨fid, enc, now, now⟩] ∧
    ∀ g, g ≠ fid →
      (register_face extract noFaults (some ⟨some fid, some img⟩) s now).store.filter
          (fun r => r.fan_id == g) = s.filter (fun r => r.fan_id == g) := by
  have hstore : (register_face extract noFaults (some ⟨some fid, some img⟩) s now).store =
      insertOrReplace s fid enc now := by
    unfold register_face
    simp [isFalsy, hfid, himg, noFaults, hext]
  refine ⟨?_, ?_, ?_⟩
  · unfold register_face
    simp [isFalsy, hfid, himg, noFaults, hext]
  · rw [hstore]
    unfold insertOrReplace
    rw [List.filter_append, filter_ne_then_eq_nil]
    simp
  · intro g hg
    rw [hstore]
    unfold insertOrReplace
    rw [List.filter_append, List.filter_filter]
    have hrow : ([⟨fid, enc, now, now⟩] : Store).filter (fun r => r.fan_id == g) = [] := by
      simp [Ne.symm hg]
    rw [hrow, List.append_nil]
    apply List.filter_congr
    intro a _
    by_cases h : a.fan_id = g
    · have hne : a.fan_id ≠ fid := by rw [h]; exact hg
      simp [h, hne, hg]
    · simp [h]

/-- C3 witness: re-registering "a" (present since time 0) at time 9 with a
new vector leaves exactly one "a" row, timestamps 9/9, and keeps the "b"
row as it was. -/
theorem C3_reregister_replaces_row_witness :
    (register_face (fun _ => ExtractResult.faces [[3]]) noFaults
        (some ⟨some "a", some "i"⟩) [⟨"a", [0], 0, 0⟩, ⟨"b", [7], 1, 1⟩] 9).resp.status = 200 ∧
    (register_face (fun _ => ExtractResult.faces [[3]]) noFaults
        (some ⟨some "a", some "i"⟩) [⟨"a", [0], 0, 0⟩, ⟨"b", [7], 1, 1⟩] 9).store.filter
        (fun r => r.fan_id == "a") = [⟨"a", [3], 9, 9⟩] ∧
    (register_face (fun _ => ExtractResult.faces [[3]]) noFaults
        (some ⟨some "a", some "i"⟩) [⟨"a", [0], 0, 0⟩, ⟨"b", [7], 1, 1⟩] 9).store.filter
        (fun r => r.fan_id == "b") =
      ([⟨"a", [0], 0, 0⟩, ⟨"b", [7], 1, 1⟩] : Store).filter (fun r => r.fan_id == "b") := by
  have h := C3_reregister_replaces_row (fun _ => ExtractResult.faces [[3]])
    "a" "i" [⟨"a", [0], 0, 0⟩, ⟨"b", [7], 1, 1⟩] [3] 9 (by decide) (by decide)
    ⟨⟨"a", [0], 0, 0⟩, by simp, rfl⟩ rfl
  exact ⟨h.1, h.2.1, h.2.2 "b" (by decide)⟩

/-- C4 counterexample: deleting "a" while the database raises on
`cursor.execute` (e.g. "database is locked") returns a 500 response while
the connection the handler opened is still open — there is no finally
block, so the catch-all except path never closes it. -/
theorem C4_leak_counterexample :
    (delete_face ⟨some "database is locked", none⟩ "a" [⟨"a", [1], 0, 0⟩]).resp.status = 500 ∧
    (delete_face ⟨some "database is locked", none⟩ "a" [⟨"a", [1], 0, 0⟩]).connOpenAtReturn = true :=
  ⟨rfl, rfl⟩

/-- C4 amended: on every path on which no sqlite call raises, each of
register, verify and delete closes the connection it opened before
returning; but when a sqlite call raises after the connection is opened,
the handler returns a 500 response with the connection still open. -/
theorem C4_release_without_db_exception (extract : String → ExtractResult)
    (fdist : Encoding → Encoding → ℚ) (threshold : ℚ)
    (data : Option ReqData) (s : Store) (now : Nat) (fid : String) :
    (register_face extract noFaults data s now).connOpenAtReturn = false ∧
    (verify_face extract fdist threshold noFaults data s).connOpenAtReturn = false ∧
    (delete_face noFaults fid s).connOpenAtReturn = false := by
  refine ⟨?_, ?_, ?_⟩
  · unfold register_face noFaults
    repeat' split
    all_goals first | rfl | simp_all
  · unfold verify_face noFaults
    repeat' split
    all_goals first | rfl | simp_all
  · unfold delete_face noFaults
    repeat' split
    all_goals first | rfl | (dsimp only; split <;> rfl) | simp_all

/-- Helper: with a positive threshold, the match flag of main.py line 211
is set exactly when the clamped confidence of line 212 is positive. -/
theorem isMatch_iff_confidence_pos (d T : ℚ) (hT : 0 < T) :
    isMatchOf d T = true ↔ 0 < confidenceOf d T := by
  unfold isMatchOf confidenceOf
  rw [decide_eq_true_iff, lt_max_iff, lt_min_iff, sub_pos, div_lt_one hT]
  simp

/-- Helper: at distance exactly equal to a positive threshold the match
flag is false and the confidence is zero. -/
theorem isMatch_confidence_at_threshold (T : ℚ) (hT : 0 < T) :
    isMatchOf T T = false ∧ confidenceOf T T = 0 := by
  unfold isMatchOf confidenceOf
  rw [div_self (ne_of_gt hT)]
  simp

/-- C10: on the single-face comparison path with a positive threshold, the
response has is_match = true exactly when its confidence_score is
positive; and when the distance equals the threshold, is_match is false
and the confidence_score is zero. -/
theorem C10_match_iff_positive_confidence (extract : String → ExtractResult)
    (fdist : Encoding → Encoding → ℚ) (threshold : ℚ)
    (fid img : String) (s : Store) (stored probe : Encoding)
    (hT : 0 < threshold) (hfid : fid ≠ "") (himg : img ≠ "")
    (hsel : selectEncoding s fid = some stored)
    (hext : extract img = ExtractResult.faces [probe]) :
    ((verify_face extract fdist threshold noFaults (some ⟨some fid, some img⟩) s).resp.body.lookup
        "is_match" = some (JVal.jbool true) ↔
      ∃ q : ℚ, (verify_face extract fdist threshold noFaults (some ⟨some fid, some img⟩) s).resp.body.lookup
        "confidence_score" = some (JVal.num q) ∧ 0 < q) ∧
    (fdist stored probe = threshold →
      (verify_face extract fdist threshold noFaults (some ⟨some fid, some img⟩) s).resp.body.lookup
        "is_match" = some (JVal.jbool false) ∧
      (verify_face extract fdist threshold noFaults (some ⟨some fid, some img⟩) s).resp.body.lookup
        "confidence_score" = some (JVal.num 0)) := by
  rw [verify_single_face_resp extract fdist threshold fid img s stored probe hfid himg hsel hext]
  constructor
  · show some (JVal.jbool (isMatchOf (fdist stored probe) threshold)) = some (JVal.jbool true) ↔
      ∃ q : ℚ, some (JVal.num (confidenceOf (fdist stored probe) threshold)) = some (JVal.num q) ∧ 0 < q
    simp only [Option.some.injEq, JVal.jbool.injEq, JVal.num.injEq]
    constructor
    · intro h
      exact ⟨confidenceOf (fdist stored probe) threshold, rfl,
        (isMatch_iff_confidence_pos (fdist stored probe) threshold hT).mp h⟩
    · rintro ⟨q, hq, hpos⟩
      exact (isMatch_iff_confidence_pos (fdist stored probe) threshold hT).mpr (hq ▸ hpos)
  · intro hd
    have hb := isMatch_confidence_at_threshold threshold hT
    constructor
    · show some (JVal.jbool (isMatchOf (fdist stored probe) threshold)) = some (JVal.jbool false)
      rw [hd, hb.1]
    · show some (JVal.num (confidenceOf (fdist stored probe) threshold)) = some (JVal.num 0)
      rw [hd, hb.2]

/-- C10 witness: a concrete run with distance equal to the threshold 3/5:
is_match is false and confidence_score is 0, so the equivalence holds with
both sides false. -/
theorem C10_match_iff_positive_confidence_witness :
    (verify_face (fun _ => ExtractResult.faces [[0]]) (fun _ _ => 3/5) (3/5) noFaults
        (some ⟨some "a", some "i"⟩) [⟨"a", [1], 0, 0⟩]).resp.body.lookup
      "is_match" = some (JVal.jbool false) ∧
    (verify_face (fun _ => ExtractResult.faces [[0]]) (fun _ _ => 3/5) (3/5) noFaults
        (some ⟨some "a", some "i"⟩) [⟨"a", [1], 0, 0⟩]).resp.body.lookup
      "confidence_score" = some (JVal.num 0) :=
  (C10_match_iff_positive_confidence (fun _ => ExtractResult.faces [[0]]) (fun _ _ => 3/5) (3/5)
    "a" "i" [⟨"a", [1], 0, 0⟩] [1] [0] (by norm_num) (by decide) (by decide) rfl rfl).2 rfl

end FacialRec
